import Mathlib

/-!
Shallow embedding of the interview state machine in `src/main.py`
(class `InterviewAgent`), together with theorems settling the spec claims.

Modelling conventions:
* The external text-completion service (`self.llm`) is modelled as a response
  trace `LLM : Nat → Except Unit String`: the i-th call made during a run
  returns `resp i`, with `.error ()` standing for the call raising an
  exception.  Every function that may call the service threads an explicit
  call counter `calls : Nat`; "the service was not consulted" is expressed
  as the counter being returned unchanged.
* Python code that can raise an uncaught exception is embedded in `Except`;
  `ValueError` at construction and `IndexError` on an empty-history access
  are the only such sites.
* Mutable attributes of `InterviewAgent` become the record `AgentState`,
  threaded functionally: each method returns its result together with the
  updated state.
-/

namespace InterviewAgentModel

/-- Python's `str.strip()`: drop leading and trailing whitespace.  Modelled
on the character list of the string so that it reduces in the kernel. -/
def pyStrip (s : String) : String :=
  ⟨((s.data.dropWhile Char.isWhitespace).reverse.dropWhile Char.isWhitespace).reverse⟩

/-- Python's `str.upper()`. -/
def pyUpper (s : String) : String :=
  ⟨s.data.map Char.toUpper⟩

/-- One role-tagged utterance of the conversation history
(a `{"role": ..., "content": ...}` dict in the source). -/
structure Msg where
  role : String
  content : String
deriving DecidableEq, Repr

/-- Response trace of the text-completion service: call number `i` returns
`resp i`; `.error ()` models the call raising. -/
def LLM : Type := Nat → Except Unit String

/-- The module-level default question script `QUESTIONS` from `src/main.py`. -/
def QUESTIONS : List String := [
  "Tell me about yourself.",
  "Why are you interested in this role?",
  "Describe a time you overcame a challenge.",
  "What is your greatest strength?",
  "What questions do you have for us?"]

/-- The runtime state of `InterviewAgent` (`self.questions`,
`self.max_followups_per_question`, `self.q_index`,
`self.current_question_followups`, `self.is_started`). -/
structure AgentState where
  questions : List String
  max_followups_per_question : Nat
  q_index : Nat
  current_question_followups : Nat
  is_started : Bool
deriving DecidableEq, Repr

/-- The `ValueError` message raised by the constructor. -/
def invalidConfigurationMsg : String :=
  "max_followups_per_question must be non-negative"

/-- `InterviewAgent.__init__`: rejects a negative
`max_followups_per_question` with a `ValueError`, and sets
`self.questions = questions or QUESTIONS` (Python `or`: both `None` and the
empty list are falsy and are replaced by the default script). -/
def init (questions : Option (List String)) (max_followups : Int) :
    Except String AgentState :=
  if max_followups < 0 then
    .error invalidConfigurationMsg
  else
    .ok {
      questions :=
        match questions with
        | none => QUESTIONS
        | some qs => if qs.isEmpty then QUESTIONS else qs
      max_followups_per_question := max_followups.toNat
      q_index := 0
      current_question_followups := 0
      is_started := false }

/-- The closing line emitted once all prepared questions are exhausted. -/
def closingLine : String := "Thank you for your time! We'll be in touch."

/-- `InterviewAgent._next_prepared_question`: return the question at
`q_index` (advancing the index and resetting the follow-up counter), or
`None` when the list is exhausted. -/
def nextPreparedQuestion (a : AgentState) : Option String × AgentState :=
  match a.questions.get? a.q_index with
  | some q =>
      (some q, { a with q_index := a.q_index + 1, current_question_followups := 0 })
  | none => (none, a)

/-- `InterviewAgent._should_ask_followup`: replies whose trimmed length is
under 20 characters unconditionally need a follow-up; otherwise the judge is
consulted and its trimmed, upper-cased response is compared to `"YES"`; a
raising judge call defaults to `true`. -/
def shouldAskFollowup (llm : LLM) (calls : Nat) (candidate_response : String) :
    Bool × Nat :=
  if (pyStrip candidate_response).length < 20 then
    (true, calls)
  else
    match llm calls with
    | .ok response => (pyUpper (pyStrip response) == "YES", calls + 1)
    | .error _ => (true, calls + 1)

/-- The readable rendering of the last four history messages built inside
`InterviewAgent._generate_followup_question`. -/
def historyText (conversation_history : List Msg) : String :=
  (conversation_history.drop (conversation_history.length - 4)).foldl
    (fun acc msg =>
      let role := if msg.role == "assistant" then "Interviewer" else "Candidate"
      acc ++ role ++ ": " ++ msg.content ++ "\n") ""

/-- `InterviewAgent._generate_followup_question`: ask the generator; a
non-empty trimmed response is returned as the follow-up, an empty one is
replaced by `"Can you give me a specific example?"`, and a raising call is
replaced by `"Could you elaborate on that with more details?"`. -/
def generateFollowupQuestion (llm : LLM) (calls : Nat)
    (conversation_history : List Msg) : String × Nat :=
  let history_text := historyText conversation_history
  let _request := "Recent conversation:\n" ++ history_text ++
    "\n\nWhat follow-up question should I ask?"
  match llm calls with
  | .ok response =>
      let followup := pyStrip response
      if followup ≠ "" then (followup, calls + 1)
      else ("Can you give me a specific example?", calls + 1)
  | .error _ => ("Could you elaborate on that with more details?", calls + 1)

/-- `InterviewAgent._generate_followup`: read the last history entry
(unguarded in the source — an empty history raises `IndexError`, modelled as
`.error ()`), decide via `shouldAskFollowup`, and generate the follow-up
when the decision is positive. -/
def generateFollowup (llm : LLM) (calls : Nat)
    (conversation_history : List Msg) : Except Unit (Option String × Nat) :=
  match conversation_history.getLast? with
  | none => .error ()
  | some lastMsg =>
      let (need, calls1) := shouldAskFollowup llm calls lastMsg.content
      if need then
        let (q, calls2) := generateFollowupQuestion llm calls1 conversation_history
        .ok (some q, calls2)
      else
        .ok (none, calls1)

/-- The tail of `InterviewAgent.agent_turn`: emit the next prepared question
or, when none remain, the closing line. -/
def nextOrClosing (a : AgentState) (calls : Nat) : String × AgentState × Nat :=
  match nextPreparedQuestion a with
  | (some prepared, a1) => (prepared, a1, calls)
  | (none, a1) => (closingLine, a1, calls)

/-- `InterviewAgent.agent_turn`: when the history is non-empty (Python
truthiness of the parameter, `None` and `[]` both falsy) and the per-question
follow-up budget is not exhausted, try the follow-up path; a generated
follow-up is returned with the counter incremented, otherwise fall through
to the next prepared question or the closing line. -/
def agentTurn (llm : LLM) (a : AgentState) (calls : Nat)
    (conversation_history : List Msg) : Except Unit (String × AgentState × Nat) :=
  if conversation_history ≠ [] ∧
      a.current_question_followups < a.max_followups_per_question then
    match generateFollowup llm calls conversation_history with
    | .error e => .error e
    | .ok (some follow, calls1) =>
        .ok (follow,
          { a with current_question_followups := a.current_question_followups + 1 },
          calls1)
    | .ok (none, calls1) => .ok (nextOrClosing a calls1)
  else
    .ok (nextOrClosing a calls)

/-- `InterviewAgent.get_response`: the first interaction sets `is_started`
and runs `agent_turn` with no history; later interactions pass the caller's
history through. -/
def getResponse (llm : LLM) (a : AgentState) (calls : Nat)
    (conversation_history : List Msg) : Except Unit (String × AgentState × Nat) :=
  if a.is_started = false then
    agentTurn llm { a with is_started := true } calls []
  else
    agentTurn llm a calls conversation_history

/-- A canned service trace whose every response is the token `"YES"`
(so any judge call answers `YES`; generator calls return the text
`"YES"`). -/
def yesLLM : LLM := fun _ => .ok "YES"

/-- A canned service trace answering `"NO"` on its first call and a fixed
follow-up question on later calls. -/
def noThenFollowupLLM : LLM :=
  fun n => if n = 0 then .ok "NO" else .ok "What happened next?"

/-- A candidate reply comfortably above the 20-character fast-path
threshold. -/
def longReply : String := "a sufficiently long answer about my career"

/-! ### Helper lemmas (shared) -/

/-- The generator result is never the empty string: a non-empty trimmed
response is kept, and both fallbacks are non-empty literals. -/
theorem generateFollowupQuestion_fst_ne_empty (llm : LLM) (calls : Nat)
    (conversation_history : List Msg) :
    (generateFollowupQuestion llm calls conversation_history).1 ≠ "" := by
  unfold generateFollowupQuestion
  cases llm calls with
  | ok response =>
      by_cases h : pyStrip response ≠ ""
      · simp [h]
      · simp [h]
  | error e => simp

/-- On a non-empty history, `generateFollowup` does not raise. -/
theorem generateFollowup_ok (llm : LLM) (calls : Nat)
    (conversation_history : List Msg) (h : conversation_history ≠ []) :
    ∃ p, generateFollowup llm calls conversation_history = .ok p := by
  unfold generateFollowup
  obtain ⟨m, hm⟩ := Option.isSome_iff_exists.mp (List.getLast?_isSome.mpr h)
  rw [hm]
  dsimp only
  split
  · exact ⟨_, rfl⟩
  · exact ⟨_, rfl⟩

/-- `agent_turn` never raises: the follow-up path is only entered on a
non-empty history. -/
theorem agentTurn_ok (llm : LLM) (a : AgentState) (calls : Nat)
    (conversation_history : List Msg) :
    ∃ r, agentTurn llm a calls conversation_history = .ok r := by
  unfold agentTurn
  by_cases hc : conversation_history ≠ [] ∧
      a.current_question_followups < a.max_followups_per_question
  · obtain ⟨p, hp⟩ := generateFollowup_ok llm calls conversation_history hc.1
    rw [if_pos hc, hp]
    obtain ⟨q, calls1⟩ := p
    cases q <;> exact ⟨_, rfl⟩
  · rw [if_neg hc]
    exact ⟨_, rfl⟩

/-- `agent_turn` with an empty (or absent) history falls straight through to
the prepared-question/closing tail. -/
theorem agentTurn_nil (llm : LLM) (a : AgentState) (calls : Nat) :
    agentTurn llm a calls [] = .ok (nextOrClosing a calls) := by
  simp [agentTurn]

/-- The two possible outcomes of the prepared-question/closing tail. -/
theorem nextOrClosing_cases (a : AgentState) (calls : Nat) :
    (∃ q, a.questions.get? a.q_index = some q ∧
      nextOrClosing a calls =
        (q, { a with q_index := a.q_index + 1, current_question_followups := 0 },
          calls)) ∨
    (a.questions.get? a.q_index = none ∧
      nextOrClosing a calls = (closingLine, a, calls)) := by
  unfold nextOrClosing nextPreparedQuestion
  cases a.questions.get? a.q_index with
  | some q => exact Or.inl ⟨q, rfl, rfl⟩
  | none => exact Or.inr ⟨rfl, rfl⟩

/-- A follow-up produced by `_generate_followup` is never the empty
string. -/
theorem generateFollowup_some_ne_empty (llm : LLM) (calls : Nat)
    (conversation_history : List Msg) (q : String) (calls1 : Nat)
    (h : generateFollowup llm calls conversation_history = .ok (some q, calls1)) :
    q ≠ "" := by
  unfold generateFollowup at h
  cases hl : conversation_history.getLast? with
  | none => rw [hl] at h; exact absurd h (by simp)
  | some m =>
      rw [hl] at h
      dsimp only at h
      split at h
      · simp only [Except.ok.injEq, Prod.mk.injEq, Option.some.injEq] at h
        exact h.1 ▸ generateFollowupQuestion_fst_ne_empty llm _ conversation_history
      · exact absurd h (by simp)

/-! ### Claim theorems -/

/-- C5: a candidate reply whose trimmed length is strictly below 20
characters makes the follow-up decision `true` and leaves the call counter
unchanged (the judge is not consulted), whatever the judge trace holds. -/
theorem short_reply_fast_path (llm : LLM) (calls : Nat) (reply : String)
    (hshort : (pyStrip reply).length < 20) :
    shouldAskFollowup llm calls reply = (true, calls) := by
  simp [shouldAskFollowup, hshort]

theorem short_reply_fast_path_witness :
    shouldAskFollowup (fun _ => .ok "NO") 7 "hi" = (true, 7) :=
  short_reply_fast_path (fun _ => .ok "NO") 7 "hi" (by decide)

/-- C7: construction succeeds for every non-negative
`max_followups_per_question` and fails with the `InvalidConfiguration`
error for every negative value, returning no agent state. -/
theorem construction_validation (questions : Option (List String))
    (max_followups : Int) :
    (0 ≤ max_followups → ∃ a, init questions max_followups = .ok a) ∧
    (max_followups < 0 →
      init questions max_followups = .error invalidConfigurationMsg) := by
  constructor
  · intro h
    unfold init
    rw [if_neg (not_lt.mpr h)]
    exact ⟨_, rfl⟩
  · intro h
    unfold init
    rw [if_pos h]

theorem construction_validation_witness :
    (init none 2).isOk = true ∧
    init none (-1) = .error invalidConfigurationMsg := by
  refine ⟨?_, (construction_validation none (-1)).2 (by decide)⟩
  obtain ⟨a, ha⟩ := (construction_validation none 2).1 (by decide)
  rw [ha]
  rfl

/-- C8: when the reply is long enough for the judge to be consulted and the
judge call returns `s`, the decision equals the comparison of the trimmed,
upper-cased `s` with the literal `"YES"`; any other value yields `false`. -/
theorem judge_verdict_parsing (llm : LLM) (calls : Nat) (reply s : String)
    (hlen : 20 ≤ (pyStrip reply).length) (hresp : llm calls = .ok s) :
    shouldAskFollowup llm calls reply
      = (pyUpper (pyStrip s) == "YES", calls + 1) ∧
    ((shouldAskFollowup llm calls reply).1 = true ↔
      pyUpper (pyStrip s) = "YES") := by
  have h : ¬ (pyStrip reply).length < 20 := not_lt.mpr hlen
  refine ⟨by simp [shouldAskFollowup, h, hresp], ?_⟩
  simp [shouldAskFollowup, h, hresp]

theorem judge_verdict_parsing_witness :
    shouldAskFollowup (fun _ => .ok " yes ") 0
        "this answer is long enough for the judge"
      = (pyUpper (pyStrip " yes ") == "YES", 0 + 1) ∧
    shouldAskFollowup (fun _ => .ok "maybe") 0
        "this answer is long enough for the judge"
      = (pyUpper (pyStrip "maybe") == "YES", 0 + 1) :=
  ⟨(judge_verdict_parsing (fun _ => .ok " yes ") 0
      "this answer is long enough for the judge" " yes " (by decide) rfl).1,
   (judge_verdict_parsing (fun _ => .ok "maybe") 0
      "this answer is long enough for the judge" "maybe" (by decide) rfl).1⟩

/-- C10: an `agent_turn` call with an empty (or absent) history skips the
follow-up path: no service call is made (the call counter is unchanged), no
exception is raised, and the returned line is the next prepared question or
the closing line. -/
theorem empty_history_skips_followup (llm : LLM) (a : AgentState) (calls : Nat) :
    agentTurn llm a calls [] = .ok (nextOrClosing a calls) ∧
    (nextOrClosing a calls).2.2 = calls ∧
    ((∃ q, a.questions.get? a.q_index = some q ∧ (nextOrClosing a calls).1 = q) ∨
      ((nextOrClosing a calls).1 = closingLine ∧ a.questions.length ≤ a.q_index)) := by
  refine ⟨agentTurn_nil llm a calls, ?_, ?_⟩
  · unfold nextOrClosing nextPreparedQuestion
    cases h : a.questions.get? a.q_index <;> simp [h]
  · unfold nextOrClosing nextPreparedQuestion
    cases h : a.questions.get? a.q_index with
    | none => exact Or.inr ⟨by simp, List.get?_eq_none.mp h⟩
    | some q => exact Or.inl ⟨q, rfl, by simp⟩

/-- C1: the per-question follow-up budget is respected: assuming the
invariant `current_question_followups ≤ max_followups_per_question` before
an `agent_turn` call, it holds after the call as well; the counter is reset
to 0 exactly when a prepared question is emitted (the index advances), is
incremented by exactly 1 when a follow-up is emitted, and is untouched when
the closing line is re-emitted. -/
theorem followup_budget_invariant (llm : LLM) (a : AgentState) (calls : Nat)
    (conversation_history : List Msg) (line : String) (a1 : AgentState)
    (calls1 : Nat)
    (hinv : a.current_question_followups ≤ a.max_followups_per_question)
    (hstep : agentTurn llm a calls conversation_history = .ok (line, a1, calls1)) :
    a1.max_followups_per_question = a.max_followups_per_question ∧
    a1.current_question_followups ≤ a1.max_followups_per_question ∧
    ((a1.q_index = a.q_index + 1 ∧ a1.current_question_followups = 0) ∨
      (a1.q_index = a.q_index ∧
        (a1.current_question_followups = a.current_question_followups + 1 ∨
          (line = closingLine ∧ a1 = a)))) := by
  unfold agentTurn at hstep
  by_cases hc : conversation_history ≠ [] ∧
      a.current_question_followups < a.max_followups_per_question
  · rw [if_pos hc] at hstep
    obtain ⟨p, hp⟩ := generateFollowup_ok llm calls conversation_history hc.1
    rw [hp] at hstep
    obtain ⟨qopt, c1⟩ := p
    cases qopt with
    | some follow =>
        simp only [Except.ok.injEq, Prod.mk.injEq] at hstep
        obtain ⟨-, ha1, -⟩ := hstep
        subst ha1
        exact ⟨rfl, hc.2, Or.inr ⟨rfl, Or.inl rfl⟩⟩
    | none =>
        dsimp only at hstep
        rcases nextOrClosing_cases a c1 with ⟨q, -, hnoc⟩ | ⟨-, hnoc⟩ <;>
          rw [hnoc] at hstep <;>
          simp only [Except.ok.injEq, Prod.mk.injEq] at hstep
        · obtain ⟨hline, ha1, -⟩ := hstep
          subst ha1
          exact ⟨rfl, Nat.zero_le _, Or.inl ⟨rfl, rfl⟩⟩
        · obtain ⟨hline, ha1, -⟩ := hstep
          subst ha1
          exact ⟨rfl, hinv, Or.inr ⟨rfl, Or.inr ⟨hline.symm, rfl⟩⟩⟩
  · rw [if_neg hc] at hstep
    rcases nextOrClosing_cases a calls with ⟨q, -, hnoc⟩ | ⟨-, hnoc⟩ <;>
      rw [hnoc] at hstep <;>
      simp only [Except.ok.injEq, Prod.mk.injEq] at hstep
    · obtain ⟨hline, ha1, -⟩ := hstep
      subst ha1
      exact ⟨rfl, Nat.zero_le _, Or.inl ⟨rfl, rfl⟩⟩
    · obtain ⟨hline, ha1, -⟩ := hstep
      subst ha1
      exact ⟨rfl, hinv, Or.inr ⟨rfl, Or.inr ⟨hline.symm, rfl⟩⟩⟩

theorem followup_budget_invariant_witness :
    (⟨["Q1"], 2, 0, 1, true⟩ : AgentState).max_followups_per_question
        = (⟨["Q1"], 2, 0, 0, true⟩ : AgentState).max_followups_per_question ∧
    (⟨["Q1"], 2, 0, 1, true⟩ : AgentState).current_question_followups
        ≤ (⟨["Q1"], 2, 0, 1, true⟩ : AgentState).max_followups_per_question ∧
    (((⟨["Q1"], 2, 0, 1, true⟩ : AgentState).q_index
          = (⟨["Q1"], 2, 0, 0, true⟩ : AgentState).q_index + 1 ∧
        (⟨["Q1"], 2, 0, 1, true⟩ : AgentState).current_question_followups = 0) ∨
      ((⟨["Q1"], 2, 0, 1, true⟩ : AgentState).q_index
          = (⟨["Q1"], 2, 0, 0, true⟩ : AgentState).q_index ∧
        ((⟨["Q1"], 2, 0, 1, true⟩ : AgentState).current_question_followups
            = (⟨["Q1"], 2, 0, 0, true⟩ : AgentState).current_question_followups + 1 ∨
          (("YES" : String) = closingLine ∧
            (⟨["Q1"], 2, 0, 1, true⟩ : AgentState) = ⟨["Q1"], 2, 0, 0, true⟩)))) :=
  followup_budget_invariant (fun _ => .ok "YES") ⟨["Q1"], 2, 0, 0, true⟩ 0
    [⟨"user", "ok"⟩] "YES" ⟨["Q1"], 2, 0, 1, true⟩ 1 (by decide) rfl

/-- C6: service failures are absorbed and mapped to three distinct
deterministic fallbacks: a raising judge call yields the decision `true`; a
generator returning a whitespace-only string yields
`"Can you give me a specific example?"`; a raising generator call yields
`"Could you elaborate on that with more details?"`; the two generator
fallbacks are distinct; and `agent_turn` never raises. -/
theorem service_failure_fallbacks :
    (∀ (llm : LLM) (calls : Nat) (reply : String),
      20 ≤ (pyStrip reply).length → llm calls = .error () →
      shouldAskFollowup llm calls reply = (true, calls + 1)) ∧
    (∀ (llm : LLM) (calls : Nat) (conversation_history : List Msg) (s : String),
      llm calls = .ok s → pyStrip s = "" →
      generateFollowupQuestion llm calls conversation_history
        = ("Can you give me a specific example?", calls + 1)) ∧
    (∀ (llm : LLM) (calls : Nat) (conversation_history : List Msg),
      llm calls = .error () →
      generateFollowupQuestion llm calls conversation_history
        = ("Could you elaborate on that with more details?", calls + 1)) ∧
    ("Can you give me a specific example?" : String)
        ≠ "Could you elaborate on that with more details?" ∧
    (∀ (llm : LLM) (a : AgentState) (calls : Nat)
        (conversation_history : List Msg),
      ∃ r, agentTurn llm a calls conversation_history = .ok r) := by
  refine ⟨?_, ?_, ?_, by decide, agentTurn_ok⟩
  · intro llm calls reply hlen herr
    simp [shouldAskFollowup, not_lt.mpr hlen, herr]
  · intro llm calls conversation_history s hok hempty
    simp [generateFollowupQuestion, hok, hempty]
  · intro llm calls conversation_history herr
    simp [generateFollowupQuestion, herr]

theorem service_failure_fallbacks_witness :
    shouldAskFollowup (fun _ => .error ()) 0
        "this is a long and thoughtful reply" = (true, 1) ∧
    generateFollowupQuestion (fun _ => .ok "   ") 0 []
      = ("Can you give me a specific example?", 1) ∧
    generateFollowupQuestion (fun _ => .error ()) 0 []
      = ("Could you elaborate on that with more details?", 1) :=
  ⟨service_failure_fallbacks.1 (fun _ => .error ()) 0
      "this is a long and thoughtful reply" (by decide) rfl,
   service_failure_fallbacks.2.1 (fun _ => .ok "   ") 0 [] "   " rfl (by decide),
   service_failure_fallbacks.2.2.1 (fun _ => .error ()) 0 [] rfl⟩

/-- C2 fails on the code: the follow-up budget check does not look at the
question index, so after the closing line has been emitted a later
`advance` with a short latest reply still emits a follow-up and increments
the counter.  Session: one question `"Q1"`, budget 2; the judge answers
`NO` once, the closing line is emitted, and the very next call returns a
generated follow-up and mutates the state. -/
theorem closing_idempotence_counterexample :
    init (some ["Q1"]) 2 = .ok ⟨["Q1"], 2, 0, 0, false⟩ ∧
    getResponse noThenFollowupLLM ⟨["Q1"], 2, 0, 0, false⟩ 0 []
      = .ok ("Q1", ⟨["Q1"], 2, 1, 0, true⟩, 0) ∧
    getResponse noThenFollowupLLM ⟨["Q1"], 2, 1, 0, true⟩ 0
        [⟨"assistant", "Q1"⟩, ⟨"user", longReply⟩]
      = .ok (closingLine, ⟨["Q1"], 2, 1, 0, true⟩, 1) ∧
    getResponse noThenFollowupLLM ⟨["Q1"], 2, 1, 0, true⟩ 1
        [⟨"assistant", "Q1"⟩, ⟨"user", longReply⟩,
          ⟨"assistant", closingLine⟩, ⟨"user", "ok"⟩]
      = .ok ("What happened next?", ⟨["Q1"], 2, 1, 1, true⟩, 2) ∧
    ("What happened next?" : String) ≠ closingLine ∧
    (⟨["Q1"], 2, 1, 1, true⟩ : AgentState) ≠ ⟨["Q1"], 2, 1, 0, true⟩ :=
  ⟨rfl, rfl, rfl, rfl, by decide, by decide⟩

/-- C2 amended: once all prepared questions are exhausted, an `advance`
call whose history is empty or whose per-question follow-up budget is
already exhausted returns the closing line with no state mutation and no
service call; with budget remaining and a non-empty history, the follow-up
path may still fire after closing. -/
theorem closing_idempotent_amended (llm : LLM) (a : AgentState) (calls : Nat)
    (conversation_history : List Msg)
    (hdone : a.questions.length ≤ a.q_index)
    (hskip : conversation_history = [] ∨
      a.max_followups_per_question ≤ a.current_question_followups) :
    agentTurn llm a calls conversation_history = .ok (closingLine, a, calls) := by
  have hget : a.questions.get? a.q_index = none := List.get?_eq_none.mpr hdone
  have hnoc : nextOrClosing a calls = (closingLine, a, calls) := by
    unfold nextOrClosing nextPreparedQuestion
    rw [hget]
  have hcond : ¬ (conversation_history ≠ [] ∧
      a.current_question_followups < a.max_followups_per_question) := by
    rcases hskip with h | h
    · simp [h]
    · exact fun hcontra => absurd hcontra.2 (not_lt.mpr h)
  unfold agentTurn
  rw [if_neg hcond, hnoc]

theorem closing_idempotent_amended_witness :
    agentTurn noThenFollowupLLM ⟨["Q1"], 2, 1, 0, true⟩ 5 []
      = .ok (closingLine, ⟨["Q1"], 2, 1, 0, true⟩, 5) :=
  closing_idempotent_amended noThenFollowupLLM ⟨["Q1"], 2, 1, 0, true⟩ 5 []
    (by decide) (Or.inl rfl)

/-- C3 fails on the code for an empty question list: the constructor's
`questions or QUESTIONS` replaces an empty list with the default script, so
the first call returns the default first question, not the closing line. -/
theorem empty_question_list_counterexample :
    init (some []) 2 = .ok ⟨QUESTIONS, 2, 0, 0, false⟩ ∧
    getResponse yesLLM ⟨QUESTIONS, 2, 0, 0, false⟩ 0 []
      = .ok ("Tell me about yourself.", ⟨QUESTIONS, 2, 1, 0, true⟩, 0) ∧
    ("Tell me about yourself." : String) ≠ closingLine :=
  ⟨rfl, rfl, by decide⟩

/-- C3 amended: a constructed agent never has an empty question list (an
empty or absent list is replaced by the default script), and the first
`get_response` call returns the head of the agent's question list
verbatim — never the closing line. -/
theorem first_advance_first_question (llm : LLM)
    (questions : Option (List String)) (max_followups : Int) (calls : Nat)
    (conversation_history : List Msg) (a : AgentState)
    (hinit : init questions max_followups = .ok a) :
    ∃ q rest, a.questions = q :: rest ∧
      getResponse llm a calls conversation_history
        = .ok (q, { a with is_started := true, q_index := 1 }, calls) := by
  unfold init at hinit
  split at hinit
  · exact absurd hinit (by simp)
  · simp only [Except.ok.injEq] at hinit
    subst hinit
    have hne : (match questions with
        | none => QUESTIONS
        | some qs => if qs.isEmpty then QUESTIONS else qs) ≠ ([] : List String) := by
      rcases questions with _ | l
      · simp [QUESTIONS]
      · dsimp only
        by_cases hl : l.isEmpty
        · simp [hl, QUESTIONS]
        · rw [if_neg hl]
          simpa [List.isEmpty_iff] using hl
    obtain ⟨q, rest, hcons⟩ := List.exists_cons_of_ne_nil hne
    refine ⟨q, rest, hcons, ?_⟩
    unfold getResponse
    rw [if_pos rfl, agentTurn_nil]
    unfold nextOrClosing nextPreparedQuestion
    dsimp only
    rw [hcons]
    simp

theorem first_advance_first_question_witness :
    getResponse yesLLM ⟨["What is your hobby?"], 2, 0, 0, false⟩ 0 []
      = .ok ("What is your hobby?",
          ⟨["What is your hobby?"], 2, 1, 0, true⟩, 0) := by
  obtain ⟨q, rest, hcons, hres⟩ := first_advance_first_question yesLLM
    (some ["What is your hobby?"]) 2 0 [] ⟨["What is your hobby?"], 2, 0, 0, false⟩ rfl
  obtain ⟨rfl, rfl⟩ : q = "What is your hobby?" ∧ rest = [] := by
    simpa using hcons.symm
  exact hres

/-- C4 fails on the code at its last step: after `"Q2"` is emitted the
counter is reset to 0, and the reply `"done"` is below the 20-character
threshold, so `advance("done")` emits another generated follow-up rather
than the closing line.  The trace uses a service answering `"YES"` to
every call, so any judge call answers `YES` as the scenario requires. -/
theorem scenario_counterexample :
    init (some ["Q1", "Q2"]) 1 = .ok ⟨["Q1", "Q2"], 1, 0, 0, false⟩ ∧
    getResponse yesLLM ⟨["Q1", "Q2"], 1, 0, 0, false⟩ 0 []
      = .ok ("Q1", ⟨["Q1", "Q2"], 1, 1, 0, true⟩, 0) ∧
    getResponse yesLLM ⟨["Q1", "Q2"], 1, 1, 0, true⟩ 0
        [⟨"assistant", "Q1"⟩, ⟨"user", "ok"⟩]
      = .ok ("YES", ⟨["Q1", "Q2"], 1, 1, 1, true⟩, 1) ∧
    getResponse yesLLM ⟨["Q1", "Q2"], 1, 1, 1, true⟩ 1
        [⟨"assistant", "Q1"⟩, ⟨"user", "ok"⟩,
          ⟨"assistant", "YES"⟩, ⟨"user", "still ok"⟩]
      = .ok ("Q2", ⟨["Q1", "Q2"], 1, 2, 0, true⟩, 1) ∧
    getResponse yesLLM ⟨["Q1", "Q2"], 1, 2, 0, true⟩ 1
        [⟨"assistant", "Q1"⟩, ⟨"user", "ok"⟩, ⟨"assistant", "YES"⟩,
          ⟨"user", "still ok"⟩, ⟨"assistant", "Q2"⟩, ⟨"user", "done"⟩]
      = .ok ("YES", ⟨["Q1", "Q2"], 1, 2, 1, true⟩, 2) ∧
    ("YES" : String) ≠ closingLine :=
  ⟨rfl, rfl, rfl, rfl, rfl, by decide⟩

/-- C4 amended: with questions `["Q1","Q2"]` and budget 1, the call
sequence returns `"Q1"`, a generated follow-up (counter = 1), `"Q2"`, then
another generated follow-up (counter = 1 again: the counter was reset when
`"Q2"` was emitted and `"done"` is under 20 characters), and the closing
line only on the fifth call, once the budget is exhausted. -/
theorem scenario_amended :
    getResponse yesLLM ⟨["Q1", "Q2"], 1, 0, 0, false⟩ 0 []
      = .ok ("Q1", ⟨["Q1", "Q2"], 1, 1, 0, true⟩, 0) ∧
    getResponse yesLLM ⟨["Q1", "Q2"], 1, 1, 0, true⟩ 0
        [⟨"assistant", "Q1"⟩, ⟨"user", "ok"⟩]
      = .ok ("YES", ⟨["Q1", "Q2"], 1, 1, 1, true⟩, 1) ∧
    getResponse yesLLM ⟨["Q1", "Q2"], 1, 1, 1, true⟩ 1
        [⟨"assistant", "Q1"⟩, ⟨"user", "ok"⟩,
          ⟨"assistant", "YES"⟩, ⟨"user", "still ok"⟩]
      = .ok ("Q2", ⟨["Q1", "Q2"], 1, 2, 0, true⟩, 1) ∧
    getResponse yesLLM ⟨["Q1", "Q2"], 1, 2, 0, true⟩ 1
        [⟨"assistant", "Q1"⟩, ⟨"user", "ok"⟩, ⟨"assistant", "YES"⟩,
          ⟨"user", "still ok"⟩, ⟨"assistant", "Q2"⟩, ⟨"user", "done"⟩]
      = .ok ("YES", ⟨["Q1", "Q2"], 1, 2, 1, true⟩, 2) ∧
    getResponse yesLLM ⟨["Q1", "Q2"], 1, 2, 1, true⟩ 2
        [⟨"assistant", "Q1"⟩, ⟨"user", "ok"⟩, ⟨"assistant", "YES"⟩,
          ⟨"user", "still ok"⟩, ⟨"assistant", "Q2"⟩, ⟨"user", "done"⟩,
          ⟨"assistant", "YES"⟩, ⟨"user", "that covers everything, thanks!"⟩]
      = .ok (closingLine, ⟨["Q1", "Q2"], 1, 2, 1, true⟩, 2) :=
  ⟨rfl, rfl, rfl, rfl, rfl⟩

/-- C9 fails on the code: a caller-supplied question list may contain the
empty string, which `advance` returns verbatim. -/
theorem nonempty_output_counterexample :
    init (some [""]) 2 = .ok ⟨[""], 2, 0, 0, false⟩ ∧
    getResponse yesLLM ⟨[""], 2, 0, 0, false⟩ 0 []
      = .ok ("", ⟨[""], 2, 1, 0, true⟩, 0) :=
  ⟨rfl, rfl⟩

/-- C9 amended: provided every configured question is non-empty, every line
returned by `agent_turn` is non-empty; generated follow-ups, the two
fallback lines and the closing line are unconditionally non-empty. -/
theorem advance_output_nonempty (llm : LLM) (a : AgentState) (calls : Nat)
    (conversation_history : List Msg) (line : String) (a1 : AgentState)
    (calls1 : Nat)
    (hq : ∀ q ∈ a.questions, q ≠ "")
    (hstep : agentTurn llm a calls conversation_history = .ok (line, a1, calls1)) :
    line ≠ "" := by
  unfold agentTurn at hstep
  by_cases hc : conversation_history ≠ [] ∧
      a.current_question_followups < a.max_followups_per_question
  · rw [if_pos hc] at hstep
    obtain ⟨p, hp⟩ := generateFollowup_ok llm calls conversation_history hc.1
    rw [hp] at hstep
    obtain ⟨qopt, c1⟩ := p
    cases qopt with
    | some follow =>
        simp only [Except.ok.injEq, Prod.mk.injEq] at hstep
        exact hstep.1 ▸
          generateFollowup_some_ne_empty llm calls conversation_history follow c1 hp
    | none =>
        dsimp only at hstep
        rcases nextOrClosing_cases a c1 with ⟨q, hget, hnoc⟩ | ⟨-, hnoc⟩ <;>
          rw [hnoc] at hstep <;>
          simp only [Except.ok.injEq, Prod.mk.injEq] at hstep
        · exact hstep.1 ▸ hq q (List.get?_mem hget)
        · exact hstep.1 ▸ (by decide : closingLine ≠ "")
  · rw [if_neg hc] at hstep
    rcases nextOrClosing_cases a calls with ⟨q, hget, hnoc⟩ | ⟨-, hnoc⟩ <;>
      rw [hnoc] at hstep <;>
      simp only [Except.ok.injEq, Prod.mk.injEq] at hstep
    · exact hstep.1 ▸ hq q (List.get?_mem hget)
    · exact hstep.1 ▸ (by decide : closingLine ≠ "")

theorem advance_output_nonempty_witness :
    ("Q1" : String) ≠ "" :=
  advance_output_nonempty yesLLM ⟨["Q1"], 1, 0, 0, true⟩ 0 [] "Q1"
    ⟨["Q1"], 1, 1, 0, true⟩ 0 (by decide) rfl

end InterviewAgentModel
